import Mathlib

/-!
Verification development for the repository Ashish1578/minecraftserver.

The repository holds four near-duplicate revisions of one Node.js script:
  * first revision   (src/index.js, part before the document separator):
    class AFKBot plus an HTTP dashboard;
  * sleep-aware revision (src/index.js, part after the separator):
    class SleepAwareAFKBot, v3.0;
  * basic revision   (src/undex.js, first part): class AFKBot, no HTTP server;
  * robust revision  (src/undex.js, second part): class RobustAFKBot, v2.0.

This file shallowly embeds the state and operations those revisions implement:
the movement-pattern table and its JavaScript property lookup, the idle-motion
driver (setControlState / clearControlStates presses with setTimeout releases),
stopMovement, changePattern, the reconnect backoff of handleConnectionError,
the lifecycle event handlers, createBot construction-error handling, and the
HTTP request dispatch of each revision that has one.  Timers are modelled as an
explicit FIFO queue of pending callbacks; wall-clock durations are carried but
only ordering matters.  Logging (addLog/console.log) is not modelled.
-/

set_option maxRecDepth 2048

namespace MinecraftAFK

/-- Splitting a character list at every slash, the semantics of the
JavaScript url.split('/'): adjacent and leading separators yield empty
segments. -/
def splitSlash : List Char → List (List Char)
  | [] => [[]]
  | c :: rest =>
    if c = '/' then [] :: splitSlash rest
    else
      match splitSlash rest with
      | [] => [[c]]
      | g :: gs => (c :: g) :: gs

/-- url.split('/')[3] with the empty string for a missing index (the
JavaScript undefined index behaves like an unknown pattern name in the lookup
that follows). -/
def urlSeg3 (url : String) : String :=
  match (splitSlash url.data).drop 3 with
  | [] => ""
  | g :: _ => String.mk g

/-- Whether pre is a prefix of url, the semantics of url.startsWith(pre). -/
def strStarts (pre url : String) : Bool := List.isPrefixOf pre.data url.data

/-- Whether pat occurs as a contiguous substring, on character lists. -/
def charsContain (pat : List Char) : List Char → Bool
  | [] => List.isPrefixOf pat []
  | c :: rest => List.isPrefixOf pat (c :: rest) || charsContain pat rest

/-- Movement directions passed to setControlState by the idle-motion driver. -/
inductive Dir
  | forward
  | back
  | left
  | right
  | jump
deriving DecidableEq, Repr

/-- Observable input events issued to the mineflayer bot handle:
press is setControlState(d, true), clearAll is clearControlStates(),
unpress is setControlState(d, false). -/
inductive Ev
  | press (d : Dir)
  | clearAll
  | unpress (d : Dir)
deriving DecidableEq, Repr

/-- Pending setTimeout callbacks of the first-revision driver
(src/index.js lines 218-294).  exec carries the remaining (direction, duration)
steps of patternMovement's executeMove; release is the hold-release callback of
patternMovement; randRelease is the release callback of randomMovement (the
Bool records the Math.random() < 0.4 jump coin); jumpRelease is the
setControlState('jump', false) timer. -/
inductive V1Timer
  | exec (moves : List (Dir × Nat))
  | release (rest : List (Dir × Nat))
  | randRelease (coin : Bool)
  | jumpRelease
deriving DecidableEq, Repr

/-- State of the first-revision AFKBot (src/index.js lines 31-46) together with
the driver bookkeeping needed to reason about timers: heldDirs is the set of
control states currently true on the bot handle, pendingTimers the queue of
scheduled driver callbacks, events the log of input commands issued,
releasesIssued the number of clearControlStates calls, pressesIssued the
number of setControlState(_, true) calls.  restartPending records that a
setTimeout(startMovement, 1000) has been scheduled by changePattern. -/
structure AFKBotState where
  currentPattern : String
  isMoving : Bool
  intervalActive : Bool
  restartPending : Bool
  botPresent : Bool
  isConnected : Bool
  heldDirs : List Dir
  pendingTimers : List V1Timer
  events : List Ev
  releasesIssued : Nat
  pressesIssued : Nat
  reconnectAttempts : Nat
  totalReconnects : Nat
deriving DecidableEq, Repr

/-- Constructor state of the first revision (src/index.js lines 31-46):
pattern circle, nothing moving, no bot handle yet, all counters zero. -/
def initV1 : AFKBotState :=
  { currentPattern := "circle"
    isMoving := false
    intervalActive := false
    restartPending := false
    botPresent := false
    isConnected := false
    heldDirs := []
    pendingTimers := []
    events := []
    releasesIssued := 0
    pressesIssued := 0
    reconnectAttempts := 0
    totalReconnects := 0 }

/-- bot.setControlState(d, true): the direction becomes held. -/
def setControl (s : AFKBotState) (d : Dir) : AFKBotState :=
  { s with heldDirs := if s.heldDirs.contains d then s.heldDirs else s.heldDirs ++ [d]
           events := s.events ++ [Ev.press d]
           pressesIssued := s.pressesIssued + 1 }

/-- bot.setControlState(d, false): only that direction is released. -/
def unsetControl (s : AFKBotState) (d : Dir) : AFKBotState :=
  { s with heldDirs := s.heldDirs.erase d
           events := s.events ++ [Ev.unpress d] }

/-- bot.clearControlStates(): every held direction is released. -/
def clearControls (s : AFKBotState) : AFKBotState :=
  { s with heldDirs := []
           events := s.events ++ [Ev.clearAll]
           releasesIssued := s.releasesIssued + 1 }

/-- stopMovement of the first revision (src/index.js lines 296-306): set
isMoving false, clear the movement interval, and if the bot handle exists call
clearControlStates.  The pending setTimeout release callbacks of
patternMovement/randomMovement are not tracked by the source and are not
cancelled here. -/
def stopMovement (s : AFKBotState) : AFKBotState :=
  if s.botPresent then
    clearControls { s with isMoving := false, intervalActive := false }
  else
    { s with isMoving := false, intervalActive := false }

/-- Body of executeMove in patternMovement (src/index.js lines 273-293): return
unless steps remain, isMoving and the bot handle hold; otherwise press the next
direction and schedule its release (setTimeout with the step duration) carrying
the remaining steps. -/
def execMoveBody (s : AFKBotState) (moves : List (Dir × Nat)) : AFKBotState :=
  match moves with
  | [] => s
  | (d, _dur) :: rest =>
    if s.isMoving && s.botPresent then
      let s1 := setControl s d
      { s1 with pendingTimers := s1.pendingTimers ++ [V1Timer.release rest] }
    else s

/-- Body of randomMovement (src/index.js lines 246-267): if the bot handle
exists, press the chosen direction and schedule the release callback; the coin
records the later Math.random() < 0.4 jump decision. -/
def randomMoveBody (s : AFKBotState) (d : Dir) (coin : Bool) : AFKBotState :=
  if s.botPresent then
    let s1 := setControl s d
    { s1 with pendingTimers := s1.pendingTimers ++ [V1Timer.randRelease coin] }
  else s

/-- Firing one scheduled driver callback of the first revision.
release (src/index.js 281-289): guarded by this.bot; clearControlStates, then
schedule executeMove on the remaining steps (which re-checks isMoving itself).
randRelease (src/index.js 255-266): guarded by this.bot; clearControlStates,
then on the jump coin press jump and schedule its 500 ms release.
jumpRelease (src/index.js 261-263): guarded by this.bot; setControlState(jump,
false). -/
def fireTimer (s : AFKBotState) : V1Timer → AFKBotState
  | V1Timer.exec moves => execMoveBody s moves
  | V1Timer.release rest =>
    if s.botPresent then
      let s1 := clearControls s
      if rest.isEmpty then s1
      else { s1 with pendingTimers := s1.pendingTimers ++ [V1Timer.exec rest] }
    else s
  | V1Timer.randRelease coin =>
    if s.botPresent then
      let s1 := clearControls s
      if coin then
        let s2 := setControl s1 Dir.jump
        { s2 with pendingTimers := s2.pendingTimers ++ [V1Timer.jumpRelease] }
      else s1
    else s
  | V1Timer.jumpRelease =>
    if s.botPresent then unsetControl s Dir.jump else s

/-- Run the pending timer queue in FIFO order, consuming fuel per fired
callback.  The driver chains at most a bounded number of callbacks per pattern,
so enough fuel drains the queue. -/
def runTimers : Nat → AFKBotState → AFKBotState
  | 0, s => s
  | fuel + 1, s =>
    match s.pendingTimers with
    | [] => s
    | t :: rest => runTimers fuel (fireTimer { s with pendingTimers := rest } t)

/-- Intermediate states visited while the timer queue runs (first element is
the start state). -/
def runStates : Nat → AFKBotState → List AFKBotState
  | 0, s => [s]
  | fuel + 1, s =>
    match s.pendingTimers with
    | [] => [s]
    | t :: rest => s :: runStates fuel (fireTimer { s with pendingTimers := rest } t)

/-! Movement-pattern table of the first revision (src/index.js lines 25-29)
and the JavaScript semantics of the `MOVEMENT_PATTERNS[name]` lookup used by
changePattern and the movement tick. -/

/-- Own keys of the first-revision MOVEMENT_PATTERNS object literal. -/
def patternKeysV1 : List String := ["circle", "square", "random"]

/-- The step sequences (Object.entries order) of the non-random patterns of
the first revision. -/
def patternTableV1 : List (String × List (Dir × Nat)) :=
  [("circle", [(Dir.forward, 1000), (Dir.right, 1000), (Dir.back, 1000), (Dir.left, 1000)]),
   ("square", [(Dir.forward, 2000), (Dir.right, 500), (Dir.back, 2000), (Dir.left, 500)])]

/-- Property names every plain object literal inherits from Object.prototype;
each is bound to a function (or, for the proto accessor, an object), all of
them truthy values. -/
def objectProtoProps : List String :=
  ["constructor", "hasOwnProperty", "isPrototypeOf", "propertyIsEnumerable",
   "toLocaleString", "toString", "valueOf", "__proto__",
   "__defineGetter__", "__defineSetter__", "__lookupGetter__", "__lookupSetter__"]

/-- Truthiness of the JavaScript lookup TABLE[name] on an object literal whose
own values are all truthy: the lookup walks the prototype chain, so own keys
AND the inherited Object.prototype members answer true; everything else gives
undefined, which is falsy. -/
def jsTruthyLookup (ownKeys : List String) (name : String) : Bool :=
  ownKeys.contains name || objectProtoProps.contains name

/-- changePattern of the first revision (src/index.js lines 343-354): when
MOVEMENT_PATTERNS[newPattern] is truthy, assign currentPattern; if moving,
stopMovement and schedule startMovement after 1000 ms; return true.  Otherwise
return false and change nothing. -/
def changePatternV1 (s : AFKBotState) (name : String) : AFKBotState × Bool :=
  if jsTruthyLookup patternKeysV1 name then
    if s.isMoving then
      ({ stopMovement { s with currentPattern := name } with restartPending := true }, true)
    else
      ({ s with currentPattern := name }, true)
  else (s, false)

/-! Reconnect policy of the first revision. -/

/-- handleConnectionError (src/index.js lines 169-184): increment
reconnectAttempts and totalReconnects; once attempts reach
maxReconnectAttempts = 10, wait 300000 ms and reset the attempt counter to 0
before reconnecting (the reset happens when that 5-minute timer fires, i.e.
before the next attempt can fail); otherwise wait min(30000 * attempts,
120000) ms.  Returns the updated state and the scheduled delay. -/
def handleConnectionError (s : AFKBotState) : AFKBotState × Nat :=
  let a := s.reconnectAttempts + 1
  if 10 ≤ a then
    ({ s with reconnectAttempts := 0, totalReconnects := s.totalReconnects + 1 }, 300000)
  else
    ({ s with reconnectAttempts := a, totalReconnects := s.totalReconnects + 1 },
      min (30000 * a) 120000)

/-- Delays scheduled by n consecutive connection failures with no intervening
success, starting from state s. -/
def failureDelays : AFKBotState → Nat → List Nat
  | _, 0 => []
  | s, n + 1 =>
    let p := handleConnectionError s
    p.2 :: failureDelays p.1 n

/-- A list of naturals is non-decreasing left to right. -/
def nondecr : List Nat → Bool
  | [] => true
  | [_] => true
  | a :: b :: rest => decide (a ≤ b) && nondecr (b :: rest)

/-! Lifecycle events delivered by the mineflayer library, and the first
revision's handlers for them (src/index.js lines 92-167). -/

inductive LifeEvent
  | login
  | spawn
  | death
  | kicked
  | errorEvt
  | endEvt
  | chat
deriving DecidableEq, Repr

def isLoginEvt : LifeEvent → Bool
  | LifeEvent.login => true
  | _ => false

def isErrorEvt : LifeEvent → Bool
  | LifeEvent.errorEvt => true
  | _ => false

def countLogins (evs : List LifeEvent) : Nat := (evs.filter isLoginEvt).length

def countErrors (evs : List LifeEvent) : Nat := (evs.filter isErrorEvt).length

/-- First-revision event handlers, counter-relevant parts (src/index.js
92-167): login sets isConnected and resets reconnectAttempts to 0; kicked
clears isConnected and schedules a 5000 ms reconnect; error clears isConnected
and runs handleConnectionError (the only place totalReconnects is
incremented); end clears isConnected and stops movement; death stops movement;
spawn and chat touch none of the modelled fields. -/
def v1Step (s : AFKBotState) : LifeEvent → AFKBotState
  | LifeEvent.login => { s with isConnected := true, reconnectAttempts := 0 }
  | LifeEvent.kicked => { s with isConnected := false }
  | LifeEvent.errorEvt => (handleConnectionError { s with isConnected := false }).1
  | LifeEvent.endEvt => stopMovement { s with isConnected := false }
  | LifeEvent.death => stopMovement s
  | LifeEvent.spawn => s
  | LifeEvent.chat => s

/-! HTTP layer shared shape. -/

/-- An HTTP response: status code and body.  The large HTML and JSON bodies of
the dashboard and status endpoints are abbreviated to fixed tags, since no
claim concerns their contents; the keep-alive body OK and the first-revision
404 body are kept verbatim. -/
structure HttpRes where
  status : Nat
  body : String
deriving DecidableEq, Repr

/-- HTTP dispatch of the first revision (src/index.js lines 361-484): CORS
OPTIONS short-circuit, dashboard at /, JSON status at /api/status, pattern
change at POST /api/pattern/{name} (the name is url.split('/')[3]), and 404
with body 404 - Not Found for everything else.  There is no /keep-alive
branch in this revision. -/
def v1Handler (s : AFKBotState) (method url : String) : AFKBotState × HttpRes :=
  if method = "OPTIONS" then (s, ⟨200, ""⟩)
  else if url = "/" then (s, ⟨200, "dashboard-html"⟩)
  else if url = "/api/status" then (s, ⟨200, "status-json"⟩)
  else if strStarts "/api/pattern/" url && (method == "POST") then
    let p := changePatternV1 s (urlSeg3 url)
    (p.1, ⟨if p.2 then 200 else 400, "pattern-json"⟩)
  else (s, ⟨404, "404 - Not Found"⟩)

/-! Sleep-aware revision, class SleepAwareAFKBot (src/index.js after the
document separator). -/

/-- Own keys of the sleep-aware MOVEMENT_PATTERNS table (src/index.js lines
554-559); same keys in the robust revision (src/undex.js lines 324-329). -/
def patternKeysSA : List String := ["gentle", "circle", "square", "random"]

/-- State of SleepAwareAFKBot (constructor, src/index.js lines 562-595), the
fields the claims touch: connection flags, pattern/moving flags, the
sleep-prevention counters and timestamps, plus retryDelay recording a retry of
createBot scheduled by its catch branch (none = no retry scheduled) and
reconnectionTimeoutPending for the post-sleep reconnection timeout handle. -/
structure SAState where
  currentPattern : String
  isMoving : Bool
  intervalActive : Bool
  restartPending : Bool
  isConnected : Bool
  connectionStable : Bool
  botPresent : Bool
  heldDirs : List Dir
  totalReconnects : Nat
  externalPingCount : Nat
  internalPingCount : Nat
  lastExternalPing : Nat
  lastWakeTime : Nat
  sleepCycles : Nat
  sleepDetected : Bool
  reconnectionTimeoutPending : Bool
  retryDelay : Option Nat
deriving DecidableEq, Repr

/-- Constructor state of SleepAwareAFKBot at boot time. -/
def saInit (boot : Nat) : SAState :=
  { currentPattern := "gentle"
    isMoving := false
    intervalActive := false
    restartPending := false
    isConnected := false
    connectionStable := false
    botPresent := false
    heldDirs := []
    totalReconnects := 0
    externalPingCount := 0
    internalPingCount := 0
    lastExternalPing := boot
    lastWakeTime := boot
    sleepCycles := 0
    sleepDetected := false
    reconnectionTimeoutPending := false
    retryDelay := none }

/-- Point-in-time snapshot built by SleepAwareAFKBot.getStatus (src/index.js
lines 701-754), restricted to the snapshot fields the claims mention. -/
structure SAStatus where
  connected : Bool
  stable : Bool
  moving : Bool
  pattern : String
  totalReconnects : Nat
  externalPingCount : Nat
  sleepDetected : Bool
deriving DecidableEq, Repr

/-- getStatus reads the supervisor state and copies it into the snapshot. -/
def saGetStatus (s : SAState) : SAStatus :=
  { connected := s.isConnected
    stable := s.connectionStable
    moving := s.isMoving
    pattern := s.currentPattern
    totalReconnects := s.totalReconnects
    externalPingCount := s.externalPingCount
    sleepDetected := s.sleepDetected }

/-- Sleep-aware lifecycle handlers (src/index.js lines 780-867): login sets
isConnected, increments totalReconnects and schedules the 10 s stable timer;
kicked, error and end clear isConnected and connectionStable; the remaining
events touch none of the modelled fields. -/
def saStep (s : SAState) : LifeEvent → SAState
  | LifeEvent.login => { s with isConnected := true, totalReconnects := s.totalReconnects + 1 }
  | LifeEvent.kicked => { s with isConnected := false, connectionStable := false }
  | LifeEvent.errorEvt => { s with isConnected := false, connectionStable := false }
  | LifeEvent.endEvt => { s with isConnected := false, connectionStable := false }
  | LifeEvent.death => s
  | LifeEvent.spawn => s
  | LifeEvent.chat => s

/-- changePattern of the sleep-aware revision (src/index.js lines 969-982):
on a truthy table lookup assign currentPattern; if moving, clear the movement
interval, set isMoving false and schedule startMovement after 2000 ms (no
clearControlStates call here).  Returns false otherwise. -/
def saChangePattern (s : SAState) (name : String) : SAState × Bool :=
  if jsTruthyLookup patternKeysSA name then
    if s.isMoving then
      ({ s with currentPattern := name, intervalActive := false,
                isMoving := false, restartPending := true }, true)
    else
      ({ s with currentPattern := name }, true)
  else (s, false)

/-- Substring containment on strings, the semantics of
String.prototype.includes. -/
def containsSub (s pat : String) : Bool := charsContain pat.data s.data

/-- The isExternal classification of the sleep-aware keep-alive branch
(src/index.js lines 1019-1024): a known uptime-monitor user agent, or any
user agent that does not contain Node. -/
def isExternalUA (ua : String) : Bool :=
  containsSub ua "UptimeRobot" || containsSub ua "Pingdom" ||
  containsSub ua "Freshping" || containsSub ua "StatusCake" ||
  containsSub ua "cron-job.org" || !(containsSub ua "Node")

/-- Mutations of the sleep-aware keep-alive branch (src/index.js lines
1026-1038): for an external user agent, increment externalPingCount, stamp
lastExternalPing with the current time and, if a sleep cycle had been
detected, clear sleepDetected and stamp lastWakeTime.  (The source checks
sleepDetected after the increment; the increment does not touch sleepDetected,
so hoisting the check is equivalent.) -/
def saKeepAliveUpdate (s : SAState) (ua : String) (now : Nat) : SAState :=
  if isExternalUA ua then
    if s.sleepDetected then
      { s with externalPingCount := s.externalPingCount + 1, lastExternalPing := now,
               sleepDetected := false, lastWakeTime := now }
    else
      { s with externalPingCount := s.externalPingCount + 1, lastExternalPing := now }
  else s

/-- HTTP dispatch of the sleep-aware revision (src/index.js lines 1004-1263):
OPTIONS short-circuit, then /keep-alive (any method) answering 200 OK after
the ping-tracking update, dashboard at /, JSON status at /api/status, pattern
change at POST /api/pattern/{name}, 404 otherwise. -/
def saHandler (s : SAState) (method url ua : String) (now : Nat) : SAState × HttpRes :=
  if method = "OPTIONS" then (s, ⟨200, ""⟩)
  else if url = "/keep-alive" then (saKeepAliveUpdate s ua now, ⟨200, "OK"⟩)
  else if url = "/" then (s, ⟨200, "dashboard-html"⟩)
  else if url = "/api/status" then (s, ⟨200, "status-json"⟩)
  else if strStarts "/api/pattern/" url && (method == "POST") then
    let p := saChangePattern s (urlSeg3 url)
    (p.1, ⟨if p.2 then 200 else 400, "pattern-json"⟩)
  else (s, ⟨404, "not-found-html"⟩)

/-- createBot of the first revision (src/index.js lines 84-90): no try/catch
around mineflayer.createBot, so a construction throw propagates to the caller
of start(); on success the bot handle is installed and handlers attached. -/
def v1CreateBot (s : AFKBotState) (constructionThrows : Bool) : Except String AFKBotState :=
  if constructionThrows then Except.error "mineflayer.createBot threw"
  else Except.ok { s with botPresent := true }

/-- createBot of the sleep-aware revision (src/index.js lines 756-778): clear
any pending reconnection timeout, then try mineflayer.createBot; on a throw,
log and schedule a retry of createBot whose delay is the 60000 ms cold-start
timeout when less than the 45000 ms wakeup grace period has passed since the
last wake, else 15000 ms.  Nothing propagates to the caller.  (Nat subtraction
truncates at 0, matching the sign of the JavaScript difference for the
comparison.) -/
def saCreateBot (s : SAState) (constructionThrows : Bool) (now : Nat) : Except String SAState :=
  if constructionThrows then
    Except.ok { s with reconnectionTimeoutPending := false,
                       retryDelay := some (if now - s.lastWakeTime < 45000 then 60000 else 15000) }
  else
    Except.ok { s with reconnectionTimeoutPending := false, botPresent := true,
                       retryDelay := none }

/-! Robust revision, class RobustAFKBot (src/undex.js after the document
separator). -/

/-- Pending setTimeout callbacks of the robust-revision pattern driver
(performPatternMovement, src/undex.js lines 842-869). -/
inductive RTimer
  | exec (moves : List (Dir × Nat))
  | release (rest : List (Dir × Nat))
deriving DecidableEq, Repr

/-- State of RobustAFKBot (constructor, src/undex.js lines 332-366), with the
same driver bookkeeping as the first-revision model, plus retryDelay and
healthCheckActive for createBot and restartPending for forceRestart. -/
structure RobustState where
  currentPattern : String
  isMoving : Bool
  intervalActive : Bool
  restartPending : Bool
  isConnected : Bool
  connectionStable : Bool
  botPresent : Bool
  healthCheckActive : Bool
  heldDirs : List Dir
  pendingTimers : List RTimer
  events : List Ev
  totalReconnects : Nat
  retryDelay : Option Nat
deriving DecidableEq, Repr

/-- Constructor state of RobustAFKBot: pattern gentle, nothing running. -/
def robustInit : RobustState :=
  { currentPattern := "gentle"
    isMoving := false
    intervalActive := false
    restartPending := false
    isConnected := false
    connectionStable := false
    botPresent := false
    healthCheckActive := false
    heldDirs := []
    pendingTimers := []
    events := []
    totalReconnects := 0
    retryDelay := none }

/-- bot.setControlState(d, true) on the robust state. -/
def rSetControl (s : RobustState) (d : Dir) : RobustState :=
  { s with heldDirs := if s.heldDirs.contains d then s.heldDirs else s.heldDirs ++ [d]
           events := s.events ++ [Ev.press d] }

/-- bot.clearControlStates() on the robust state. -/
def rClearControls (s : RobustState) : RobustState :=
  { s with heldDirs := [], events := s.events ++ [Ev.clearAll] }

/-- Body of executeMove in performPatternMovement (src/undex.js lines
846-866): return unless steps remain and isMoving, the bot handle and
isConnected all hold; otherwise press the next direction and schedule its
release carrying the remaining steps. -/
def rExecMoveBody (s : RobustState) (moves : List (Dir × Nat)) : RobustState :=
  match moves with
  | [] => s
  | (d, _dur) :: rest =>
    if s.isMoving && s.botPresent && s.isConnected then
      let s1 := rSetControl s d
      { s1 with pendingTimers := s1.pendingTimers ++ [RTimer.release rest] }
    else s

/-- Firing one scheduled robust pattern-driver callback.  The release callback
(src/undex.js 856-864) is guarded by this.bot and this.isConnected: it calls
clearControlStates and schedules executeMove on the remaining steps after
1000 ms. -/
def rFireTimer (s : RobustState) : RTimer → RobustState
  | RTimer.exec moves => rExecMoveBody s moves
  | RTimer.release rest =>
    if s.botPresent && s.isConnected then
      let s1 := rClearControls s
      if rest.isEmpty then s1
      else { s1 with pendingTimers := s1.pendingTimers ++ [RTimer.exec rest] }
    else s

/-- Run the robust pending timer queue in FIFO order with fuel. -/
def rRunTimers : Nat → RobustState → RobustState
  | 0, s => s
  | fuel + 1, s =>
    match s.pendingTimers with
    | [] => s
    | t :: rest => rRunTimers fuel (rFireTimer { s with pendingTimers := rest } t)

/-- changePattern of the robust revision (src/undex.js lines 871-879): on a
truthy table lookup it assigns currentPattern and returns true, and does
nothing else: no stopMovement, no interval reset, no restart. -/
def robustChangePattern (s : RobustState) (name : String) : RobustState × Bool :=
  if jsTruthyLookup patternKeysSA name then
    ({ s with currentPattern := name }, true)
  else (s, false)

/-- forceRestart of the robust revision (src/undex.js lines 615-634):
cleanupBot (drop connection flags, stop moving, clear the movement interval,
end and null the bot handle) plus cleanupTimers, then schedule createBot after
15000 ms.  The anonymous in-flight release setTimeouts are not tracked by the
source and stay pending. -/
def robustForceRestart (s : RobustState) : RobustState :=
  { s with isConnected := false, connectionStable := false, isMoving := false,
           intervalActive := false, botPresent := false, healthCheckActive := false,
           restartPending := true }

/-- createBot of the robust revision (src/undex.js lines 671-689): try
mineflayer.createBot; on success attach handlers and start the 30 s health
check; on a throw, log and schedule a retry after 15000 ms.  Nothing
propagates to the caller. -/
def robustCreateBot (s : RobustState) (constructionThrows : Bool) : Except String RobustState :=
  if constructionThrows then
    Except.ok { s with retryDelay := some 15000 }
  else
    Except.ok { s with botPresent := true, healthCheckActive := true, retryDelay := none }

/-- HTTP dispatch of the robust revision (src/undex.js lines 906-1135):
OPTIONS short-circuit, /keep-alive answering a bare 200 OK with no state
change, dashboard at /, JSON status at /api/status, pattern change at POST
/api/pattern/{name}, forced restart at POST /api/restart, 404 otherwise. -/
def robustHandler (s : RobustState) (method url : String) : RobustState × HttpRes :=
  if method = "OPTIONS" then (s, ⟨200, ""⟩)
  else if url = "/keep-alive" then (s, ⟨200, "OK"⟩)
  else if url = "/" then (s, ⟨200, "dashboard-html"⟩)
  else if url = "/api/status" then (s, ⟨200, "status-json"⟩)
  else if strStarts "/api/pattern/" url && (method == "POST") then
    let p := robustChangePattern s (urlSeg3 url)
    (p.1, ⟨if p.2 then 200 else 400, "pattern-json"⟩)
  else if url = "/api/restart" && (method == "POST") then
    (robustForceRestart s, ⟨200, "restart-json"⟩)
  else (s, ⟨404, "not-found-html"⟩)

/-! Driver-run scenarios and trace predicates used to settle the movement
claims. -/

/-- Driver state right after startMovement of the first revision has set
isMoving and moveInPattern reaches patternMovement (src/index.js lines
218-243): connected, bot handle present, nothing held, the synchronous
executeMove call represented as the single queued callback. -/
def driverStart (moves : List (Dir × Nat)) : AFKBotState :=
  { initV1 with isMoving := true, intervalActive := true, botPresent := true,
                isConnected := true, pendingTimers := [V1Timer.exec moves] }

/-- The directions array of randomMovement (src/index.js line 249) indexed by
the Math.floor(Math.random() * 4) draw. -/
def dirOfIdx (i : Fin 4) : Dir :=
  match i.val with
  | 0 => Dir.forward
  | 1 => Dir.back
  | 2 => Dir.left
  | _ => Dir.right

/-- Driver state right after moveInPattern has called randomMovement
synchronously with the given direction draw and jump coin. -/
def randomStart (i : Fin 4) (coin : Bool) : AFKBotState :=
  randomMoveBody
    { initV1 with isMoving := true, intervalActive := true, botPresent := true,
                  isConnected := true }
    (dirOfIdx i) coin

/-- A trace in which every press is immediately followed by its release
(clearControlStates, or setControlState(d, false) for the same direction) and
nothing else occurs: presses and releases strictly alternate, so each press
has exactly one release before the next press, and the trace ends released. -/
def pairedTrace : List Ev → Bool
  | [] => true
  | Ev.press _ :: Ev.clearAll :: rest => pairedTrace rest
  | Ev.press d :: Ev.unpress d2 :: rest => d == d2 && pairedTrace rest
  | _ => false

/-- Number of queued release callbacks (of any of the three release kinds). -/
def releaseTimerCount (s : AFKBotState) : Nat :=
  (s.pendingTimers.filter fun t =>
    match t with
    | V1Timer.release _ => true
    | V1Timer.randRelease _ => true
    | V1Timer.jumpRelease => true
    | V1Timer.exec _ => false).length

/-- In every visited state, a held input has exactly one queued release
callback and nothing is queued to release an input that is not held. -/
def exactlyOneReleasePerHold (states : List AFKBotState) : Bool :=
  states.all fun s =>
    releaseTimerCount s == (if s.heldDirs.isEmpty then 0 else 1)

/-- Presses of a movement direction (jump excluded), as counted in the event
log. -/
def isMovePress : Ev → Bool
  | Ev.press Dir.jump => false
  | Ev.press _ => true
  | _ => false

def movePressCount (s : AFKBotState) : Nat := (s.events.filter isMovePress).length

/-- The state of the first-revision driver after patternMovement has pressed
the first circle direction: forward is held and its release callback (carrying
the three remaining steps) is pending.  Used as the concrete scenario for the
stopMovement claim. -/
def afterFirstPress : AFKBotState :=
  execMoveBody
    { initV1 with isMoving := true, intervalActive := true, botPresent := true,
                  isConnected := true }
    [(Dir.forward, 1000), (Dir.right, 1000), (Dir.back, 1000), (Dir.left, 1000)]

/-- A robust-revision state in mid-flight through the square pattern: the
first press (forward) has happened and its release callback, carrying the
three remaining steps, is pending. -/
def robustMidSquare : RobustState :=
  rExecMoveBody
    { robustInit with currentPattern := "square", isMoving := true,
                      intervalActive := true, botPresent := true, isConnected := true }
    [(Dir.forward, 1200), (Dir.right, 400), (Dir.back, 1200), (Dir.left, 400)]

/-- Folding a sequence of pattern-change requests through the first-revision
changePattern. -/
def foldChangeV1 (s : AFKBotState) (cmds : List String) : AFKBotState :=
  cmds.foldl (fun t p => (changePatternV1 t p).1) s

/-- Folding a sequence of pattern-change requests through the robust-revision
changePattern. -/
def foldChangeR (s : RobustState) (cmds : List String) : RobustState :=
  cmds.foldl (fun t p => (robustChangePattern t p).1) s

/-- Whether a modelled call returned normally (ok) instead of letting a
JavaScript exception escape (error). -/
def exceptOk {α : Type} : Except String α → Bool
  | Except.ok _ => true
  | Except.error _ => false

/-- The retry delay scheduled by a sleep-aware createBot call, when it
returned normally. -/
def saRetryOf : Except String SAState → Option Nat
  | Except.ok s => s.retryDelay
  | Except.error _ => none

/-- The retry delay scheduled by a robust createBot call, when it returned
normally. -/
def robustRetryOf : Except String RobustState → Option Nat
  | Except.ok s => s.retryDelay
  | Except.error _ => none

/-! Helper lemmas. -/

theorem stopMovement_currentPattern (s : AFKBotState) :
    (stopMovement s).currentPattern = s.currentPattern := by
  simp only [stopMovement, clearControls]
  split <;> rfl

theorem stopMovement_totalReconnects (s : AFKBotState) :
    (stopMovement s).totalReconnects = s.totalReconnects := by
  simp only [stopMovement, clearControls]
  split <;> rfl

theorem stopMovement_isMoving (s : AFKBotState) :
    (stopMovement s).isMoving = false := by
  simp only [stopMovement, clearControls]
  split <;> rfl

theorem stopMovement_pendingTimers (s : AFKBotState) :
    (stopMovement s).pendingTimers = s.pendingTimers := by
  simp only [stopMovement, clearControls]
  split <;> rfl

theorem handleConnectionError_totalReconnects (s : AFKBotState) :
    (handleConnectionError s).1.totalReconnects = s.totalReconnects + 1 := by
  simp only [handleConnectionError]
  split <;> rfl

theorem fireTimer_isMoving (s : AFKBotState) (t : V1Timer) :
    (fireTimer s t).isMoving = s.isMoving := by
  cases t with
  | exec moves =>
    cases moves with
    | nil => rfl
    | cons m rest =>
      obtain ⟨d, dur⟩ := m
      simp only [fireTimer, execMoveBody]
      split <;> rfl
  | release rest =>
    simp only [fireTimer]
    split
    · split <;> rfl
    · rfl
  | randRelease coin =>
    simp only [fireTimer]
    split
    · split <;> rfl
    · rfl
  | jumpRelease =>
    simp only [fireTimer]
    split <;> rfl

theorem fireTimer_movePress (s : AFKBotState) (t : V1Timer) (h : s.isMoving = false) :
    movePressCount (fireTimer s t) = movePressCount s := by
  cases t with
  | exec moves =>
    cases moves with
    | nil => rfl
    | cons m rest =>
      obtain ⟨d, dur⟩ := m
      simp [fireTimer, execMoveBody, h]
  | release rest =>
    simp only [fireTimer]
    split
    · split <;> simp [movePressCount, clearControls, isMovePress]
    · rfl
  | randRelease coin =>
    simp only [fireTimer]
    split
    · split <;> simp [movePressCount, clearControls, setControl, isMovePress]
    · rfl
  | jumpRelease =>
    simp only [fireTimer]
    split
    · simp [movePressCount, unsetControl, isMovePress]
    · rfl

theorem runTimers_no_new_movePress (n : Nat) :
    ∀ s : AFKBotState, s.isMoving = false →
      movePressCount (runTimers n s) = movePressCount s := by
  induction n with
  | zero => intro s _; rfl
  | succ n ih =>
    intro s h
    simp only [runTimers]
    cases hp : s.pendingTimers with
    | nil => rfl
    | cons t rest =>
      have h1 : ({ s with pendingTimers := rest } : AFKBotState).isMoving = false := h
      have h2 : (fireTimer { s with pendingTimers := rest } t).isMoving = false := by
        rw [fireTimer_isMoving]; exact h1
      calc movePressCount (runTimers n (fireTimer { s with pendingTimers := rest } t))
          = movePressCount (fireTimer { s with pendingTimers := rest } t) := ih _ h2
        _ = movePressCount { s with pendingTimers := rest } := fireTimer_movePress _ _ h1
        _ = movePressCount s := rfl

theorem rExecMoveBody_pattern (s : RobustState) (p : String) (moves : List (Dir × Nat)) :
    rExecMoveBody { s with currentPattern := p } moves
      = { rExecMoveBody s moves with currentPattern := p } := by
  cases moves with
  | nil => rfl
  | cons m rest =>
    obtain ⟨d, dur⟩ := m
    simp only [rExecMoveBody]
    split <;> rfl

theorem rFireTimer_pattern (s : RobustState) (p : String) (t : RTimer) :
    rFireTimer { s with currentPattern := p } t
      = { rFireTimer s t with currentPattern := p } := by
  cases t with
  | exec moves => exact rExecMoveBody_pattern s p moves
  | release rest =>
    simp only [rFireTimer]
    split
    · split <;> rfl
    · rfl

theorem rRunTimers_pattern (n : Nat) :
    ∀ (s : RobustState) (p : String),
      rRunTimers n { s with currentPattern := p }
        = { rRunTimers n s with currentPattern := p } := by
  induction n with
  | zero => intro s p; rfl
  | succ n ih =>
    intro s p
    obtain ⟨cp, im, ia, rp, ic, cs, bp, hc, hd, pt, ev, tr, rd⟩ := s
    cases pt with
    | nil => rfl
    | cons t rest =>
      calc rRunTimers (n + 1)
              { RobustState.mk cp im ia rp ic cs bp hc hd (t :: rest) ev tr rd
                with currentPattern := p }
          = rRunTimers n
              (rFireTimer { RobustState.mk cp im ia rp ic cs bp hc hd rest ev tr rd
                            with currentPattern := p } t) := rfl
        _ = rRunTimers n
              { rFireTimer (RobustState.mk cp im ia rp ic cs bp hc hd rest ev tr rd) t
                with currentPattern := p } :=
            congrArg (rRunTimers n) (rFireTimer_pattern _ p t)
        _ = { rRunTimers n (rFireTimer (RobustState.mk cp im ia rp ic cs bp hc hd rest ev tr rd) t)
              with currentPattern := p } := ih _ p
        _ = { rRunTimers (n + 1) (RobustState.mk cp im ia rp ic cs bp hc hd (t :: rest) ev tr rd)
              with currentPattern := p } := rfl

theorem changePatternV1_inv (s : AFKBotState) (p : String)
    (h : jsTruthyLookup patternKeysV1 s.currentPattern = true) :
    jsTruthyLookup patternKeysV1 (changePatternV1 s p).1.currentPattern = true := by
  simp only [changePatternV1]
  split
  · rename_i hp
    split
    · simpa [stopMovement_currentPattern] using hp
    · simpa using hp
  · simpa using h

theorem foldChangeV1_inv : ∀ (cmds : List String) (s : AFKBotState),
    jsTruthyLookup patternKeysV1 s.currentPattern = true →
    jsTruthyLookup patternKeysV1 (foldChangeV1 s cmds).currentPattern = true := by
  intro cmds
  induction cmds with
  | nil => intro s h; exact h
  | cons p rest ih => intro s h; exact ih _ (changePatternV1_inv s p h)

theorem robustChangePattern_inv (s : RobustState) (p : String)
    (h : jsTruthyLookup patternKeysSA s.currentPattern = true) :
    jsTruthyLookup patternKeysSA (robustChangePattern s p).1.currentPattern = true := by
  simp only [robustChangePattern]
  split
  · rename_i hp; simpa using hp
  · simpa using h

theorem foldChangeR_inv : ∀ (cmds : List String) (s : RobustState),
    jsTruthyLookup patternKeysSA s.currentPattern = true →
    jsTruthyLookup patternKeysSA (foldChangeR s cmds).currentPattern = true := by
  intro cmds
  induction cmds with
  | nil => intro s h; exact h
  | cons p rest ih => intro s h; exact ih _ (robustChangePattern_inv s p h)

theorem saRun_totalReconnects : ∀ (evs : List LifeEvent) (s : SAState),
    (evs.foldl saStep s).totalReconnects = s.totalReconnects + countLogins evs := by
  intro evs
  induction evs with
  | nil => intro s; simp [countLogins]
  | cons e rest ih =>
    intro s
    rw [List.foldl_cons, ih]
    cases e <;> (simp [saStep, countLogins, isLoginEvt, List.filter_cons]; try omega)

theorem v1Run_totalReconnects : ∀ (evs : List LifeEvent) (s : AFKBotState),
    (evs.foldl v1Step s).totalReconnects = s.totalReconnects + countErrors evs := by
  intro evs
  induction evs with
  | nil => intro s; simp [countErrors]
  | cons e rest ih =>
    intro s
    rw [List.foldl_cons, ih]
    cases e <;>
      (simp [v1Step, countErrors, isErrorEvt, List.filter_cons,
         handleConnectionError_totalReconnects, stopMovement_totalReconnects];
       try omega)

/-! Claim theorems. -/

/-- Claim C1, counterexample: the first-revision HTTP handler (which the claim
also covers) has no /keep-alive branch, so a GET /keep-alive falls through to
the 404 branch with body 404 - Not Found instead of answering 200 OK; shown at
the boot state and at a connected, moving state. -/
theorem keepAlive_missing_in_first_revision :
    (v1Handler initV1 "GET" "/keep-alive").2 = ⟨404, "404 - Not Found"⟩ ∧
    (v1Handler { initV1 with isConnected := true, botPresent := true, isMoving := true }
        "GET" "/keep-alive").2 = ⟨404, "404 - Not Found"⟩ := by
  exact ⟨rfl, rfl⟩

/-- Claim C1, amended: in the revisions that define the route (sleep-aware and
robust), GET /keep-alive responds 200 with body exactly OK for every supervisor
state, user agent and time; the first revision has no such route and responds
404. -/
theorem keepAlive_always_ok :
    ∀ (s : SAState) (ua : String) (now : Nat) (r : RobustState),
      (saHandler s "GET" "/keep-alive" ua now).2 = ⟨200, "OK"⟩ ∧
      (robustHandler r "GET" "/keep-alive").2 = ⟨200, "OK"⟩ := by
  intro s ua now r
  exact ⟨rfl, rfl⟩

/-- Claim C2, counterexample: starting from the boot state, eleven consecutive
connection failures with no intervening success produce the delay sequence
30s, 60s, 90s, 120s x 6, 300s, 30s — the 11th delay drops below the 10th
because reaching maxReconnectAttempts resets the counter, so the delays of a
continuous-failure streak are not non-decreasing; moreover the counter resets
to 0 already on a login event (the first revision has no Stable state at all),
making the next delay the 30s minimum. -/
theorem reconnectDelay_not_monotone_counterexample :
    failureDelays initV1 11 =
      [30000, 60000, 90000, 120000, 120000, 120000, 120000, 120000, 120000, 300000, 30000] ∧
    nondecr (failureDelays initV1 11) = false ∧
    (v1Step (v1Step (v1Step initV1 LifeEvent.errorEvt) LifeEvent.errorEvt)
        LifeEvent.login).reconnectAttempts = 0 ∧
    (handleConnectionError (v1Step (v1Step (v1Step initV1 LifeEvent.errorEvt)
        LifeEvent.errorEvt) LifeEvent.login)).2 = 30000 := by
  refine ⟨?_, ?_, ?_, ?_⟩ <;> decide

/-- Claim C2, amended: within a continuous-failure streak the reconnect delay
is min(30000 x k, 120000) for the k-th failure and is non-decreasing as long
as the attempt counter stays below maxReconnectAttempts = 10; on the 10th
failure the bot waits the extended 300000 ms cooldown and resets the counter,
so the following delay returns to the 30000 ms minimum; and the counter is
reset to zero by every successful login (the first revision has no Stable
state), after which the next failure is delayed by the minimum. -/
theorem reconnectDelay_backoff_amended :
    nondecr (failureDelays initV1 9) = true ∧
    failureDelays initV1 9 = (List.range 9).map (fun k => min (30000 * (k + 1)) 120000) ∧
    (∀ s : AFKBotState,
      (v1Step s LifeEvent.login).reconnectAttempts = 0 ∧
      (handleConnectionError (v1Step s LifeEvent.login)).2 = 30000) := by
  refine ⟨by decide, by decide, ?_⟩
  intro s
  constructor
  · rfl
  · simp [handleConnectionError, v1Step]

/-- Claim C3: the name toString is not a key of the movement-pattern table,
yet POST /api/pattern/toString answers 200 and overwrites currentPattern in
both the first and the robust revision, because the JavaScript lookup
MOVEMENT_PATTERNS[name] finds the inherited, truthy Object.prototype.toString;
the documented behaviour (400 and no state change for every non-key name)
holds only for names that are neither own keys nor Object.prototype members. -/
theorem patternLookup_prototype_bug :
    (v1Handler initV1 "POST" "/api/pattern/toString").2.status = 200 ∧
    (v1Handler initV1 "POST" "/api/pattern/toString").1.currentPattern = "toString" ∧
    patternKeysV1.contains "toString" = false ∧
    (robustHandler robustInit "POST" "/api/pattern/toString").2.status = 200 ∧
    (robustHandler robustInit "POST" "/api/pattern/toString").1.currentPattern = "toString" ∧
    patternKeysSA.contains "toString" = false ∧
    (v1Handler initV1 "POST" "/api/pattern/warp").2.status = 400 ∧
    (v1Handler initV1 "POST" "/api/pattern/warp").1 = initV1 := by
  refine ⟨?_, ?_, ?_, ?_, ?_, ?_, ?_, ?_⟩ <;> decide

/-- Claim C4, counterexample: in the first revision createBot wraps no
try/catch around mineflayer.createBot, so a construction throw escapes to the
caller of start() instead of being logged and retried. -/
theorem createBot_escape_counterexample :
    v1CreateBot initV1 true = Except.error "mineflayer.createBot threw" := rfl

/-- Claim C4, amended: in the sleep-aware and robust revisions createBot never
lets a construction exception escape: whether or not construction throws, the
call returns normally, and on a throw a retry is scheduled — after the 60000 ms
cold-start timeout when less than the 45000 ms wakeup grace period has passed
since the last wake (sleep-aware), else after 15000 ms.  The first revision
(and the basic revision) has no such handler. -/
theorem createBot_retry_in_later_revisions :
    ∀ (s : SAState) (r : RobustState) (t : Bool) (now : Nat),
      exceptOk (saCreateBot s t now) = true ∧
      exceptOk (robustCreateBot r t) = true ∧
      saRetryOf (saCreateBot s true now)
        = some (if now - s.lastWakeTime < 45000 then 60000 else 15000) ∧
      robustRetryOf (robustCreateBot r true) = some 15000 := by
  intro s r t now
  refine ⟨?_, ?_, rfl, rfl⟩
  · cases t <;> rfl
  · cases t <;> rfl

/-- Claim C5, counterexample: after patternMovement has issued one key-press,
stopMovement leaves that press's release setTimeout pending (the source never
stores those timer handles), and by the time the pending timer fires,
clearControlStates has been issued twice for the single press (once by
stopMovement itself, once by the timer); a second stopMovement call issues yet
another release, so repeated stops are not observational no-ops. -/
theorem stopMovement_pending_release_counterexample :
    afterFirstPress.pressesIssued = 1 ∧
    (stopMovement afterFirstPress).pendingTimers ≠ [] ∧
    (runTimers 6 (stopMovement afterFirstPress)).releasesIssued = 2 ∧
    (stopMovement (stopMovement afterFirstPress)).releasesIssued = 2 := by
  refine ⟨?_, ?_, ?_, ?_⟩ <;> decide

/-- Claim C5, amended: stopMovement stops the driver (isMoving false, interval
cleared) and, when the bot handle exists, immediately clears all held inputs;
it leaves the pending input-release timers queued, but running any number of
them after a stop issues no further movement-direction press; a second
stopMovement leaves every state field fixed except that it re-issues one more
clearControlStates when the bot handle exists. -/
theorem stopMovement_amended :
    ∀ (s : AFKBotState) (n : Nat),
      (stopMovement s).isMoving = false ∧
      (stopMovement s).intervalActive = false ∧
      (stopMovement s).pendingTimers = s.pendingTimers ∧
      (stopMovement s).heldDirs = (if s.botPresent then [] else s.heldDirs) ∧
      (stopMovement (stopMovement s)).isMoving = (stopMovement s).isMoving ∧
      (stopMovement (stopMovement s)).intervalActive = (stopMovement s).intervalActive ∧
      (stopMovement (stopMovement s)).heldDirs = (stopMovement s).heldDirs ∧
      (stopMovement (stopMovement s)).pendingTimers = (stopMovement s).pendingTimers ∧
      (stopMovement (stopMovement s)).pressesIssued = (stopMovement s).pressesIssued ∧
      (stopMovement (stopMovement s)).releasesIssued
        = (stopMovement s).releasesIssued + (if s.botPresent then 1 else 0) ∧
      movePressCount (runTimers n (stopMovement s)) = movePressCount (stopMovement s) := by
  intro s n
  by_cases hb : s.botPresent <;>
    refine ⟨?_, ?_, ?_, ?_, ?_, ?_, ?_, ?_, ?_, ?_,
      runTimers_no_new_movePress n _ (stopMovement_isMoving s)⟩ <;>
    simp [stopMovement, clearControls, hb]

/-- Claim C6 (pattern and random modes of the first-revision driver): every
setControlState(direction, true) press is followed in the issued-event trace by
exactly one release (clearControlStates, or setControlState(jump, false) for
the jump pulse) before the next press, in every visited state a held input has
exactly one queued release timer and an idle state has none, and the run ends
with no input held and no callback pending — over both table patterns with
step lists and over every random direction draw and jump coin. -/
theorem driver_press_release_pairing :
    (patternTableV1.all fun p =>
        pairedTrace (runTimers 12 (driverStart p.2)).events &&
        (runTimers 12 (driverStart p.2)).heldDirs.isEmpty &&
        (runTimers 12 (driverStart p.2)).pendingTimers.isEmpty &&
        exactlyOneReleasePerHold (runStates 12 (driverStart p.2))) = true ∧
    (∀ (i : Fin 4) (coin : Bool),
      pairedTrace (runTimers 6 (randomStart i coin)).events = true ∧
      (runTimers 6 (randomStart i coin)).heldDirs = [] ∧
      (runTimers 6 (randomStart i coin)).pendingTimers = [] ∧
      exactlyOneReleasePerHold (runStates 6 (randomStart i coin)) = true) := by
  constructor
  · decide
  · decide

/-- Claim C7, counterexample: in the robust revision, changing the pattern
mid-flight (square pattern, first hold released pending) succeeds, stops
nothing, and the remaining steps of the old pattern (right, back, left) still
execute afterwards — the old pattern's steps are not abandoned. -/
theorem robust_changePattern_keeps_old_steps :
    (robustChangePattern robustMidSquare "circle").2 = true ∧
    (robustChangePattern robustMidSquare "circle").1.currentPattern = "circle" ∧
    (robustChangePattern robustMidSquare "circle").1.isMoving = true ∧
    (robustChangePattern robustMidSquare "circle").1.pendingTimers
      = robustMidSquare.pendingTimers ∧
    (rRunTimers 10 (robustChangePattern robustMidSquare "circle").1).events.contains
      (Ev.press Dir.right) = true ∧
    (rRunTimers 10 (robustChangePattern robustMidSquare "circle").1).events.contains
      (Ev.press Dir.back) = true ∧
    (rRunTimers 10 (robustChangePattern robustMidSquare "circle").1).events.contains
      (Ev.press Dir.left) = true := by
  refine ⟨?_, ?_, ?_, ?_, ?_, ?_, ?_⟩ <;> decide

/-- Claim C7, amended: the robust revision's changePattern only rewrites
currentPattern — the driver flags, held inputs and queued callbacks are
untouched and the in-flight chain of the old pattern issues exactly the same
input events as if no change had happened (the new pattern takes effect only
at the next interval tick); in the first revision changePattern on a truthy
name while moving stops the driver and schedules a restart but leaves the
queued release callbacks pending; the sleep-aware revision likewise stops the
interval without clearing held inputs. -/
theorem changePattern_amended :
    (∀ (s : RobustState) (name : String),
       (robustChangePattern s name).1.isMoving = s.isMoving ∧
       (robustChangePattern s name).1.intervalActive = s.intervalActive ∧
       (robustChangePattern s name).1.heldDirs = s.heldDirs ∧
       (robustChangePattern s name).1.pendingTimers = s.pendingTimers) ∧
    (∀ (s : RobustState) (name : String) (n : Nat),
       (rRunTimers n (robustChangePattern s name).1).events = (rRunTimers n s).events) ∧
    (∀ (s : AFKBotState) (name : String),
       (changePatternV1 s name).1.isMoving
         = (!(jsTruthyLookup patternKeysV1 name) && s.isMoving) ∧
       (changePatternV1 s name).1.pendingTimers = s.pendingTimers ∧
       (changePatternV1 s name).1.restartPending
         = (if jsTruthyLookup patternKeysV1 name && s.isMoving then true
            else s.restartPending)) ∧
    (∀ (s : SAState) (name : String),
       (saChangePattern s name).1.isMoving
         = (!(jsTruthyLookup patternKeysSA name) && s.isMoving) ∧
       (saChangePattern s name).1.heldDirs = s.heldDirs) := by
  refine ⟨?_, ?_, ?_, ?_⟩
  · intro s name
    simp only [robustChangePattern]
    split <;> exact ⟨rfl, rfl, rfl, rfl⟩
  · intro s name n
    simp only [robustChangePattern]
    split
    · rw [rRunTimers_pattern]
    · rfl
  · intro s name
    simp only [changePatternV1]
    by_cases hl : jsTruthyLookup patternKeysV1 name <;>
      by_cases hm : s.isMoving <;>
      by_cases hb : s.botPresent <;>
      simp [hl, hm, hb, stopMovement, clearControls]
  · intro s name
    simp only [saChangePattern]
    by_cases hl : jsTruthyLookup patternKeysSA name <;>
      by_cases hm : s.isMoving <;>
      simp [hl, hm]

/-- Claim C8, counterexample: in the sleep-aware revision a GET /keep-alive
from an external monitor mutates supervisor state: externalPingCount is
incremented and lastExternalPing overwritten, although keep-alive is neither
the pattern-change nor the forced-restart command. -/
theorem keepAlive_mutates_state_counterexample :
    (saHandler (saInit 0) "GET" "/keep-alive" "UptimeRobot/2.0" 777).1.externalPingCount
      = (saInit 0).externalPingCount + 1 ∧
    (saHandler (saInit 0) "GET" "/keep-alive" "UptimeRobot/2.0" 777).1.lastExternalPing = 777 ∧
    (saInit 0).lastExternalPing = 0 := by
  refine ⟨?_, ?_, ?_⟩ <;> decide

/-- Claim C8, amended: GET /, GET /api/status, OPTIONS and unknown paths leave
the supervisor state unchanged in every revision that serves HTTP, and the
robust revision's GET /keep-alive does too; the sleep-aware GET /keep-alive
mutates only the sleep-prevention bookkeeping (externalPingCount,
lastExternalPing, sleepDetected, lastWakeTime) and leaves the session,
movement, pattern and reconnect fields unchanged — so apart from that
bookkeeping, only the pattern-change and forced-restart commands mutate
supervisor state. -/
theorem handler_frame_amended :
    ∀ (s : SAState) (ua : String) (now : Nat) (r : RobustState) (v : AFKBotState),
      (saHandler s "GET" "/" ua now).1 = s ∧
      (saHandler s "GET" "/api/status" ua now).1 = s ∧
      (saHandler s "GET" "/unknown" ua now).1 = s ∧
      (saHandler s "OPTIONS" "/" ua now).1 = s ∧
      ((saHandler s "GET" "/keep-alive" ua now).1.currentPattern = s.currentPattern ∧
       (saHandler s "GET" "/keep-alive" ua now).1.isMoving = s.isMoving ∧
       (saHandler s "GET" "/keep-alive" ua now).1.isConnected = s.isConnected ∧
       (saHandler s "GET" "/keep-alive" ua now).1.connectionStable = s.connectionStable ∧
       (saHandler s "GET" "/keep-alive" ua now).1.totalReconnects = s.totalReconnects ∧
       (saHandler s "GET" "/keep-alive" ua now).1.heldDirs = s.heldDirs ∧
       (saHandler s "GET" "/keep-alive" ua now).1.internalPingCount = s.internalPingCount ∧
       (saHandler s "GET" "/keep-alive" ua now).1.sleepCycles = s.sleepCycles) ∧
      (robustHandler r "GET" "/keep-alive").1 = r ∧
      (robustHandler r "GET" "/").1 = r ∧
      (robustHandler r "GET" "/api/status").1 = r ∧
      (v1Handler v "GET" "/").1 = v ∧
      (v1Handler v "GET" "/api/status").1 = v := by
  intro s ua now r v
  refine ⟨rfl, rfl, rfl, rfl, ?_, rfl, rfl, rfl, rfl, rfl⟩
  have hred : (saHandler s "GET" "/keep-alive" ua now).1 = saKeepAliveUpdate s ua now := rfl
  rw [hred]
  unfold saKeepAliveUpdate
  split
  · split <;> exact ⟨rfl, rfl, rfl, rfl, rfl, rfl, rfl, rfl⟩
  · exact ⟨rfl, rfl, rfl, rfl, rfl, rfl, rfl, rfl⟩

/-- Claim C9, counterexample: changePattern accepts the name toString (found
on Object.prototype, not in the table), so afterwards currentPattern is not a
key of MOVEMENT_PATTERNS — the stated invariant fails. -/
theorem currentPattern_key_invariant_counterexample :
    (changePatternV1 initV1 "toString").2 = true ∧
    (changePatternV1 initV1 "toString").1.currentPattern = "toString" ∧
    patternKeysV1.contains (changePatternV1 initV1 "toString").1.currentPattern = false := by
  refine ⟨?_, ?_, ?_⟩ <;> decide

/-- Claim C9, amended: along every sequence of changePattern calls from the
constructor state, currentPattern is always a name on which the JavaScript
lookup MOVEMENT_PATTERNS[currentPattern] is truthy (an own key or an inherited
Object.prototype member) — so the movement tick never looks up an undefined
pattern, even though currentPattern need not be an own key of the table; this
holds in the first and the robust revision alike. -/
theorem currentPattern_lookup_defined_invariant :
    ∀ cmds : List String,
      jsTruthyLookup patternKeysV1 (foldChangeV1 initV1 cmds).currentPattern = true ∧
      jsTruthyLookup patternKeysSA (foldChangeR robustInit cmds).currentPattern = true := by
  intro cmds
  exact ⟨foldChangeV1_inv cmds initV1 (by decide),
         foldChangeR_inv cmds robustInit (by decide)⟩

/-- Claim C10: in the sleep-aware revision every login event increments
totalReconnects and nothing else does among the lifecycle events, so the
totalReconnects reported by getStatus equals the number of logins since boot
and is already 1 after the very first successful connection; the first
revision instead increments it once per error event, so its counter equals the
number of connection errors and is still 0 after a first login. -/
theorem totalReconnects_counts_logins :
    (∀ evs : List LifeEvent,
       (saGetStatus (evs.foldl saStep (saInit 0))).totalReconnects = countLogins evs ∧
       (evs.foldl v1Step initV1).totalReconnects = countErrors evs) ∧
    (saGetStatus (saStep (saInit 0) LifeEvent.login)).totalReconnects = 1 ∧
    (saStep (saInit 0) LifeEvent.login).isConnected = true ∧
    (v1Step initV1 LifeEvent.login).totalReconnects = 0 := by
  refine ⟨?_, by decide, by decide, by decide⟩
  intro evs
  constructor
  · show (evs.foldl saStep (saInit 0)).totalReconnects = countLogins evs
    rw [saRun_totalReconnects]
    simp [saInit]
  · rw [v1Run_totalReconnects]
    simp [initV1]

end MinecraftAFK
